import Mathlib

/-!
Verification of the PDF annotation subsystem of the DJMT-WorkVault
time-tracker editor (`TimeTrackerEditor.tsx`).

The embedding models JavaScript numbers as rationals (`ℚ`): every quantity
the claims mention (pixel offsets, page dimensions, fractions) is produced
by exact arithmetic on representable inputs, so `ℚ` is faithful except at
degenerate container sizes (division by zero, which JavaScript turns into
`Infinity`/`NaN`); theorems about the mapper therefore carry positivity
hypotheses on the container dimensions.

The pdf-lib library is modelled by a document representation `PdfDoc`
(a list of pages, each with a width, a height and a list of draw
operations): `copyPages` copies every page preserving order and
dimensions, `getPage i` throws when `i` is out of range (here: `List.get?`
returning `none`), `drawRectangle`/`drawText` append operations to a page,
and `save` serializes the document (modelled as the document itself).
The Helvetica text-width metric is an opaque parameter
`String → ℚ → ℚ`; no claim depends on its values.
-/

/-- The `PdfAnnotation` record of `TimeTrackerEditor.tsx`
(`{id, pageIndex, xPct, yPct, text, fontSize}`). `pageIndex` is stored as a
natural number: the mapper only ever produces clamped non-negative indices. -/
structure PdfAnnot where
  id : String
  pageIndex : ℕ
  xPct : ℚ
  yPct : ℚ
  text : String
  fontSize : ℚ
deriving DecidableEq, Repr

/-- A DOM bounding client rect (`container.getBoundingClientRect()`). -/
structure Rect where
  left : ℚ
  top : ℚ
  width : ℚ
  height : ℚ
deriving DecidableEq, Repr

/-- `onPdfClick` of `TimeTrackerEditor.tsx` (lines 236-266): translate a
click at client coordinates over the container `rect` into a new
annotation. `pdfNumPagesState` is the component's `pdfNumPages` state read
by the handler; `newId` stands for the generated `uuidv4()`.
The two sequential `if` statements clamping `pageIndex` and the
`Math.max(0, Math.min(1, …))` clamps on the fractions are kept verbatim. -/
def onPdfClick (newId : String) (pdfNumPagesState : ℕ) (rect : Rect)
    (clientX clientY : ℚ) : PdfAnnot :=
  let offsetY := clientY - rect.top
  let offsetX := clientX - rect.left
  let pageCount : ℕ := max 1 pdfNumPagesState
  let pageHeightPx : ℚ := rect.height / (pageCount : ℚ)
  let rawIndex : ℤ := ⌊offsetY / pageHeightPx⌋
  let clampedLow : ℤ := if rawIndex < 0 then 0 else rawIndex
  let pageIndex : ℤ :=
    if clampedLow ≥ (pageCount : ℤ) then (pageCount : ℤ) - 1 else clampedLow
  let pageTop : ℚ := (pageIndex : ℚ) * pageHeightPx
  let xPct : ℚ := offsetX / rect.width
  let yPct : ℚ := (offsetY - pageTop) / pageHeightPx
  { id := newId
    pageIndex := pageIndex.toNat
    xPct := max 0 (min 1 xPct)
    yPct := max 0 (min 1 yPct)
    text := "Edit me"
    fontSize := 12 }

/-- The component's `pdfNumPages` state: `const [pdfNumPages] = useState<number>(0)`
(line 53) initializes it to `0` and destructures no setter, and no other line
of the component writes it, so it is the constant `0`. -/
def pdfNumPages : ℕ := 0

/-- `saveAnnotationEdit` of `TimeTrackerEditor.tsx` (lines 268-272), restricted
to its effect on the annotation list:
`setAnnotations(prev => prev.map(a => (a.id === updated.id ? updated : a)))`. -/
def saveAnnotationEdit (annots : List PdfAnnot) (updated : PdfAnnot) :
    List PdfAnnot :=
  annots.map fun a => if a.id = updated.id then updated else a

/-- One drawing operation recorded on a page of the output document:
`page.drawRectangle` (white background patch) or `page.drawText`
(black Helvetica text), with the arguments the source passes. -/
inductive DrawOp where
  | rect (x y w h : ℚ)
  | text (s : String) (x y size : ℚ)
deriving DecidableEq, Repr

/-- A PDF page as the compositor sees it: dimensions from `page.getSize()`
plus the list of operations drawn onto it. -/
structure Page where
  width : ℚ
  height : ℚ
  ops : List DrawOp
deriving DecidableEq, Repr

/-- A parsed PDF document: its list of pages, in order. -/
abbrev PdfDoc := List Page

/-- pdf-lib `copyPages(srcPdf, srcPdf.getPageIndices())` followed by
`copiedPages.forEach(p => pdfCopy.addPage(p))`: every source page is copied
into the fresh output document, preserving order and dimensions. -/
def copyPages (doc : PdfDoc) : PdfDoc := doc

/-- The one per-annotation failure the export pipeline can hit in this model:
pdf-lib `getPage(i)` throws when `i` is not a valid page index. -/
inductive ExportError where
  | pageIndexOutOfRange
deriving DecidableEq, Repr

/-- The per-annotation body of the `annotations.forEach` loop in
`exportPdfWithAnnotations` (lines 293-315): resolve the target page with
`getPage` (throws — `Except.error` — when `pageIndex` is out of range), then
draw the white background rectangle and the text. `helvWidth` is the
embedded Helvetica's `widthOfTextAtSize`. The source wraps only
`drawRectangle` in a `try`/`catch`; in this model drawing cannot fail, so
that catch has no observable effect. -/
def drawAnnot (helvWidth : String → ℚ → ℚ) (doc : PdfDoc) (a : PdfAnnot) :
    Except ExportError PdfDoc :=
  match doc.get? a.pageIndex with
  | none => .error .pageIndexOutOfRange
  | some page =>
    let x := a.xPct * page.width
    let y := (1 - a.yPct) * page.height
    let padding : ℚ := 2
    let textWidth := helvWidth a.text a.fontSize
    let textHeight := a.fontSize
    .ok (doc.set a.pageIndex
      { page with ops := page.ops ++
          [DrawOp.rect (x - padding) (y - padding)
              (textWidth + 2 * padding) (textHeight + 2 * padding),
            DrawOp.text a.text x y a.fontSize] })

/-- The whole `annotations.forEach` loop: annotations are drawn in list
order; an exception thrown by `getPage` escapes the loop (JavaScript
`forEach` does not catch), so a single out-of-range annotation aborts all
remaining drawing. -/
def composeAnnotations (helvWidth : String → ℚ → ℚ) (doc : PdfDoc) :
    List PdfAnnot → Except ExportError PdfDoc
  | [] => .ok doc
  | a :: rest =>
    match drawAnnot helvWidth doc a with
    | .error e => .error e
    | .ok doc2 => composeAnnotations helvWidth doc2 rest

/-- The attachment kind discriminator `"pdf" | "word" | "excel"`. -/
inductive AttachKind where
  | pdf
  | word
  | excel
deriving DecidableEq, Repr

/-- The `attachment` field of `TemplateData`. -/
structure Attachment where
  url : String
  kind : AttachKind
  storagePath : String
deriving DecidableEq, Repr

/-- A table cell (`{id, text}`). -/
structure Cell where
  id : String
  text : String
deriving DecidableEq, Repr

/-- `TemplateData`, restricted to the fields the claims touch: the table
rows and the attachment reference. -/
structure TemplateData where
  rows : List (List Cell)
  attachment : Option Attachment
deriving DecidableEq, Repr

/-- The component state the annotation subsystem reads and writes:
the `template` and `annotations` `useState` cells. -/
structure EditorState where
  template : TemplateData
  annotations : List PdfAnnot
deriving DecidableEq, Repr

/-- Outcome of `fetch(template.attachment.url)`: the promise rejects
(network error) or resolves to a response with an `ok` flag, a
`statusText` and a byte body. -/
inductive FetchOutcome where
  | netError (msg : String)
  | response (ok : Bool) (statusText : String) (body : List ℕ)
deriving DecidableEq, Repr

/-- Observable result of `exportPdfWithAnnotations`: the early
`alert("No PDF loaded")` return, the `catch` branch
(`alert("Failed to export PDF: …")`, no bytes produced, no download, no
upload), or success (the serialized output document handed to the
download link). -/
inductive ExportResult where
  | noPdf
  | failed (msg : String)
  | exported (outDoc : PdfDoc)
deriving DecidableEq, Repr

/-- `exportPdfWithAnnotations` of `TimeTrackerEditor.tsx` (lines 278-348),
modelled as a function of the component state, the fetch outcome, and the
pdf-lib parser `PDFDocument.load` (`none` = the load promise rejects).
The returned state is the component state after the run: the function
never calls `setAnnotations` or `setTemplate`, so it is returned as-is in
every branch. -/
def exportPdfWithAnnotations (helvWidth : String → ℚ → ℚ)
    (st : EditorState) (fetched : FetchOutcome)
    (load : List ℕ → Option PdfDoc) : EditorState × ExportResult :=
  match st.template.attachment with
  | none => (st, .noPdf)
  | some att =>
    if att.url = "" then (st, .noPdf)
    else
      match fetched with
      | .netError m => (st, .failed m)
      | .response ok statusText body =>
        if ok then
          match load body with
          | none => (st, .failed "DocumentParseError")
          | some srcPdf =>
            match composeAnnotations helvWidth (copyPages srcPdf)
                st.annotations with
            | .error _ => (st, .failed "PageIndexOutOfRange")
            | .ok outDoc => (st, .exported outDoc)
        else (st, .failed ("Failed to fetch PDF: " ++ statusText))

/-- JavaScript `String.prototype.includes` for a non-empty needle:
`s.includes(sub)` holds iff `sub` occurs in `s`; `String.splitOn` yields
more than one part exactly in that case. -/
def strIncludes (s sub : String) : Bool := (s.splitOn sub).length != 1

/-- A dropped `File` as `onDropFile` inspects it: its `name` and MIME
`type`. -/
structure DropFile where
  name : String
  mime : String
deriving DecidableEq, Repr

/-- Result of the `uploadFile` helper: the storage path and public URL. -/
structure UploadResult where
  storagePath : String
  url : String
deriving DecidableEq, Repr

/-- The attachment-type classification at the top of `onDropFile`
(lines 175-179): `"application/pdf"` exactly, else MIME containing
`"word"` or name ending `".docx"`, else MIME containing `"spreadsheet"`
or name ending `".xlsx"`, else `throw new Error("Unsupported file type")`
(here `none`). -/
def classifyFile (f : DropFile) : Option AttachKind :=
  if f.mime = "application/pdf" then some .pdf
  else if strIncludes f.mime "word" || String.endsWith f.name ".docx" then
    some .word
  else if strIncludes f.mime "spreadsheet" || String.endsWith f.name ".xlsx" then
    some .excel
  else none

/-- `onDropFile` of `TimeTrackerEditor.tsx` (lines 169-190), modelled on
the component state. `user` is the signed-in user id (`none` → early
return), `files` the accepted files, `upload` the `uploadFile` collaborator
(`Except.error` = the upload or database insert threw, caught by the
handler's `catch`, which leaves the state untouched). On success the
handler sets the attachment and then `setAnnotations([])`. -/
def onDropFile (user : Option String) (st : EditorState)
    (files : List DropFile)
    (upload : DropFile → Except String UploadResult) : EditorState :=
  match user with
  | none => st
  | some _ =>
    match files.head? with
    | none => st
    | some file =>
      match classifyFile file with
      | none => st
      | some kind =>
        match upload file with
        | .error _ => st
        | .ok r =>
          { st with
            template := { st.template with
              attachment := some { url := r.url, kind := kind,
                                    storagePath := r.storagePath } }
            annotations := [] }

/-- Modelled from the spec: the overlay renderer of §4.3 is not present in
the source (the editor displays the attachment in a bare `iframe` and
renders no marker elements), so the marker-placement formula is taken from
the spec's words: `left = xFraction * containerWidth`,
`top = pageIndex * pageHeightPx + yFraction * pageHeightPx` with
`pageHeightPx = containerHeight / pageCount`. -/
def renderMarker (containerWidth containerHeight : ℚ) (pageCount : ℕ)
    (a : PdfAnnot) : ℚ × ℚ :=
  let pageHeightPx := containerHeight / (pageCount : ℚ)
  (a.xPct * containerWidth,
    (a.pageIndex : ℚ) * pageHeightPx + a.yPct * pageHeightPx)

/-- Characterization of the click mapper for an in-bounds click on a
container of positive size: the sequential clamps of the source reduce to
the closed-form `clamp`/division formulas of spec §4.2. -/
lemma onPdfClick_char (newId : String) (P : ℕ) (W H px py : ℚ)
    (hP : 1 ≤ P) (hW : 0 < W) (hH : 0 < H)
    (hx0 : 0 ≤ px) (hxW : px ≤ W) (hy0 : 0 ≤ py) (hyH : py ≤ H) :
    ((onPdfClick newId P ⟨0, 0, W, H⟩ px py).pageIndex : ℤ) =
        max 0 (min (⌊py / (H / (P : ℚ))⌋) ((P : ℤ) - 1)) ∧
      (onPdfClick newId P ⟨0, 0, W, H⟩ px py).xPct = px / W ∧
      (onPdfClick newId P ⟨0, 0, W, H⟩ px py).yPct =
        (py - ((onPdfClick newId P ⟨0, 0, W, H⟩ px py).pageIndex : ℚ) *
            (H / (P : ℚ))) / (H / (P : ℚ)) := by
  have hp : (0 : ℚ) < (P : ℚ) := by exact_mod_cast Nat.lt_of_lt_of_le Nat.zero_lt_one hP
  have hHP : (0 : ℚ) < H / (P : ℚ) := div_pos hH hp
  set q : ℚ := py / (H / (P : ℚ)) with hq
  set f : ℤ := ⌊q⌋ with hf
  have hf0 : (0 : ℤ) ≤ f := Int.le_floor.mpr (by
    simpa using div_nonneg hy0 hHP.le)
  have hfl : (f : ℚ) ≤ q := Int.floor_le q
  have hfu : q < (f : ℚ) + 1 := Int.lt_floor_add_one q
  have hqP : q ≤ (P : ℚ) := by
    rw [hq, div_le_iff₀ hHP]
    have hPH : (P : ℚ) * (H / (P : ℚ)) = H := by field_simp
    linarith
  have hfP : f ≤ (P : ℤ) := by exact_mod_cast hfl.trans hqP
  have hxv : max 0 (min 1 (px / W)) = px / W := by
    rw [min_eq_right ((div_le_one hW).mpr hxW), max_eq_right (div_nonneg hx0 hW.le)]
  simp only [onPdfClick, Nat.max_eq_right hP, sub_zero]
  rw [if_neg (not_lt.mpr hf0)]
  by_cases hge : f ≥ (P : ℤ)
  · rw [if_pos hge]
    have hfPeq : f = (P : ℤ) := le_antisymm hfP hge
    have hq_eq : q = (P : ℚ) := by
      refine le_antisymm hqP ?_
      calc (P : ℚ) = (f : ℚ) := by exact_mod_cast hfPeq.symm
        _ ≤ q := hfl
    have htn : ((((P : ℤ) - 1).toNat : ℕ) : ℤ) = (P : ℤ) - 1 :=
      Int.toNat_of_nonneg (by
        have : (1 : ℤ) ≤ (P : ℤ) := by exact_mod_cast hP
        omega)
    have hcast : ((((P : ℤ) - 1).toNat : ℕ) : ℚ) = (P : ℚ) - 1 := by
      have := congrArg (fun z : ℤ => (z : ℚ)) htn
      push_cast at this
      simpa using this
    refine ⟨?_, hxv, ?_⟩
    · rw [htn]
      omega
    · have hval : (py - ((P : ℚ) - 1) * (H / (P : ℚ))) / (H / (P : ℚ)) = 1 := by
        rw [sub_div, mul_div_cancel_right₀ _ hHP.ne', ← hq, hq_eq]
        ring
      push_cast [hcast]
      rw [hval]
      norm_num
  · rw [if_neg hge]
    have hcast : ((f.toNat : ℕ) : ℚ) = (f : ℚ) := by
      have := congrArg (fun z : ℤ => (z : ℚ)) (Int.toNat_of_nonneg hf0)
      push_cast at this
      simpa using this
    refine ⟨?_, hxv, ?_⟩
    · rw [Int.toNat_of_nonneg hf0]
      omega
    · have hv : (py - (f : ℚ) * (H / (P : ℚ))) / (H / (P : ℚ)) = q - (f : ℚ) := by
        rw [sub_div, mul_div_cancel_right₀ _ hHP.ne', ← hq]
      push_cast [hcast]
      rw [hv]
      rw [min_eq_right (by linarith : q - (f : ℚ) ≤ 1),
        max_eq_right (by linarith : (0 : ℚ) ≤ q - (f : ℚ))]

/-- C2: for a click at container-relative offsets `(px, py)` inside a
container of size `(W, H)` showing a document of `P ≥ 1` pages, the mapper
produces `pageIndex = clamp(⌊py / (H/P)⌋, 0, P-1)`,
`yFraction = (py - pageIndex·(H/P)) / (H/P)` and `xFraction = px / W`.
The scenario 800×1200, 2 pages, click `(400, 900)` is the witness. -/
theorem c2_mapper (newId : String) (P : ℕ) (W H px py : ℚ)
    (hP : 1 ≤ P) (hW : 0 < W) (hH : 0 < H)
    (hx0 : 0 ≤ px) (hxW : px ≤ W) (hy0 : 0 ≤ py) (hyH : py ≤ H) :
    ((onPdfClick newId P ⟨0, 0, W, H⟩ px py).pageIndex : ℤ) =
        max 0 (min (⌊py / (H / (P : ℚ))⌋) ((P : ℤ) - 1)) ∧
      (onPdfClick newId P ⟨0, 0, W, H⟩ px py).yPct =
        (py - ((onPdfClick newId P ⟨0, 0, W, H⟩ px py).pageIndex : ℚ) *
            (H / (P : ℚ))) / (H / (P : ℚ)) ∧
      (onPdfClick newId P ⟨0, 0, W, H⟩ px py).xPct = px / W := by
  obtain ⟨h1, h2, h3⟩ :=
    onPdfClick_char newId P W H px py hP hW hH hx0 hxW hy0 hyH
  exact ⟨h1, h3, h2⟩

/-- Witness for C2: container 800×1200, 2 pages, click at `(400, 900)`
yields `pageIndex = 1`, `yFraction = 1/2`, `xFraction = 1/2`. -/
theorem c2_mapper_witness :
    (onPdfClick "w" 2 ⟨0, 0, 800, 1200⟩ 400 900).pageIndex = 1 ∧
      (onPdfClick "w" 2 ⟨0, 0, 800, 1200⟩ 400 900).yPct = 1/2 ∧
      (onPdfClick "w" 2 ⟨0, 0, 800, 1200⟩ 400 900).xPct = 1/2 := by
  have h := c2_mapper "w" 2 800 1200 400 900 (by norm_num) (by norm_num)
    (by norm_num) (by norm_num) (by norm_num) (by norm_num) (by norm_num)
  refine ⟨?_, ?_, ?_⟩ <;> norm_num [onPdfClick]

/-- C4: mapping a click inside the container through `onPdfClick` and
rendering the resulting annotation back through the spec §4.3 overlay
formulas at the same container size reproduces the click position exactly
(zero error, hence within sub-pixel rounding error). -/
theorem c4_round_trip (newId : String) (P : ℕ) (W H px py : ℚ)
    (hP : 1 ≤ P) (hW : 0 < W) (hH : 0 < H)
    (hx0 : 0 ≤ px) (hxW : px ≤ W) (hy0 : 0 ≤ py) (hyH : py ≤ H) :
    renderMarker W H P (onPdfClick newId P ⟨0, 0, W, H⟩ px py) = (px, py) := by
  obtain ⟨h1, h2, h3⟩ :=
    onPdfClick_char newId P W H px py hP hW hH hx0 hxW hy0 hyH
  have hp : (0 : ℚ) < (P : ℚ) := by
    exact_mod_cast Nat.lt_of_lt_of_le Nat.zero_lt_one hP
  have hHP : (0 : ℚ) < H / (P : ℚ) := div_pos hH hp
  simp only [renderMarker]
  refine Prod.ext ?_ ?_
  · rw [h2]
    exact div_mul_cancel₀ px hW.ne'
  · rw [h3, div_mul_cancel₀ _ hHP.ne']
    ring

/-- Witness for C4: the spec §8 scenario — container 800×1200, 2 pages,
click `(400, 900)` maps and renders back to `(400, 900)`. -/
theorem c4_round_trip_witness :
    renderMarker 800 1200 2 (onPdfClick "w" 2 ⟨0, 0, 800, 1200⟩ 400 900) =
      (400, 900) :=
  c4_round_trip "w" 2 800 1200 400 900 (by norm_num) (by norm_num)
    (by norm_num) (by norm_num) (by norm_num) (by norm_num) (by norm_num)

/-- C5: for every pointer position — including positions outside the
container bounds — the created annotation has `xPct, yPct ∈ [0, 1]` and
`pageIndex ≤ P - 1` (its `pageIndex` is a natural number, hence `≥ 0`).
The container has positive dimensions; at zero dimensions JavaScript
arithmetic degenerates to `NaN` and the model does not apply. -/
theorem c5_clamping (newId : String) (P : ℕ) (rect : Rect)
    (clientX clientY : ℚ) (hP : 1 ≤ P)
    (hW : 0 < rect.width) (hH : 0 < rect.height) :
    0 ≤ (onPdfClick newId P rect clientX clientY).xPct ∧
      (onPdfClick newId P rect clientX clientY).xPct ≤ 1 ∧
      0 ≤ (onPdfClick newId P rect clientX clientY).yPct ∧
      (onPdfClick newId P rect clientX clientY).yPct ≤ 1 ∧
      (onPdfClick newId P rect clientX clientY).pageIndex ≤ P - 1 := by
  simp only [onPdfClick, Nat.max_eq_right hP]
  refine ⟨le_max_left _ _, ?_, le_max_left _ _, ?_, ?_⟩
  · exact max_le zero_le_one (min_le_left _ _)
  · exact max_le zero_le_one (min_le_left _ _)
  · split_ifs <;> omega

/-- Witness for C5: a click far below and to the left of an 800×1200
two-page container is clamped to `xPct = 0`, `yPct = 1`, `pageIndex = 1`. -/
theorem c5_clamping_witness :
    0 ≤ (onPdfClick "w" 2 ⟨0, 0, 800, 1200⟩ (-50) 5000).xPct ∧
      (onPdfClick "w" 2 ⟨0, 0, 800, 1200⟩ (-50) 5000).xPct ≤ 1 ∧
      0 ≤ (onPdfClick "w" 2 ⟨0, 0, 800, 1200⟩ (-50) 5000).yPct ∧
      (onPdfClick "w" 2 ⟨0, 0, 800, 1200⟩ (-50) 5000).yPct ≤ 1 ∧
      (onPdfClick "w" 2 ⟨0, 0, 800, 1200⟩ (-50) 5000).pageIndex ≤ 2 - 1 :=
  c5_clamping "w" 2 ⟨0, 0, 800, 1200⟩ (-50) 5000 (by norm_num)
    (by norm_num) (by norm_num)

/-- C9: the component's `pdfNumPages` state is initialized to `0` and its
`useState` destructuring binds no setter, so no code path can update it;
the mapper therefore always computes `pageCount = max(1, 0) = 1` and every
annotation created by a click has `pageIndex = 0`, whatever the click
position, the container geometry, and the real page count of the loaded
document. -/
theorem c9_page_count_stuck (newId : String) (rect : Rect)
    (clientX clientY : ℚ) :
    max 1 pdfNumPages = 1 ∧
      (onPdfClick newId pdfNumPages rect clientX clientY).pageIndex = 0 := by
  refine ⟨rfl, ?_⟩
  simp only [onPdfClick, pdfNumPages]
  split_ifs <;> omega

/-- Drawing one annotation never changes the number of pages of the
output document. -/
lemma drawAnnot_length (helvWidth : String → ℚ → ℚ) (doc doc2 : PdfDoc)
    (a : PdfAnnot) (h : drawAnnot helvWidth doc a = .ok doc2) :
    doc2.length = doc.length := by
  unfold drawAnnot at h
  cases hg : doc.get? a.pageIndex with
  | none => rw [hg] at h; simp at h
  | some page =>
    rw [hg] at h
    simp only [Except.ok.injEq] at h
    rw [← h]
    simp

/-- If any annotation in the list points at a page index that is not
below the document's page count, the drawing loop throws: the resulting
computation is the `PageIndexOutOfRange` error, whatever valid annotations
surround the bad one. -/
lemma composeAnnotations_err (helvWidth : String → ℚ → ℚ)
    (annots : List PdfAnnot) :
    ∀ doc : PdfDoc, (∃ a ∈ annots, doc.length ≤ a.pageIndex) →
      composeAnnotations helvWidth doc annots =
        .error .pageIndexOutOfRange := by
  induction annots with
  | nil => intro doc h; simp at h
  | cons a rest ih =>
    intro doc h
    cases hg : doc.get? a.pageIndex with
    | none =>
      simp only [composeAnnotations, drawAnnot, hg]
    | some page =>
      have hlt : a.pageIndex < doc.length := by
        by_contra hge
        rw [List.get?_eq_none.mpr (le_of_not_lt hge)] at hg
        cases hg
      obtain ⟨b, hb, hble⟩ := h
      have hbrest : b ∈ rest := by
        rcases List.mem_cons.mp hb with rfl | h2
        · omega
        · exact h2
      simp only [composeAnnotations, drawAnnot, hg]
      apply ih
      exact ⟨b, hbrest, by simpa using hble⟩

/-- A stored attachment reference shared by the concrete export runs. -/
def sampleAtt : Attachment :=
  { url := "https://storage.example/tracker.pdf", kind := .pdf,
    storagePath := "u/tracker.pdf" }

/-- A template holding `sampleAtt` and no table rows. -/
def sampleTemplate : TemplateData := { rows := [], attachment := some sampleAtt }

/-- A one-page 612×792-point source document. -/
def c1SrcDoc : PdfDoc := [{ width := 612, height := 792, ops := [] }]

/-- Component state with one valid annotation (page 0) and one stale
annotation pointing at page 5 of the one-page document. -/
def c1State : EditorState :=
  { template := sampleTemplate
    annotations :=
      [{ id := "ok", pageIndex := 0, xPct := 1/2, yPct := 1/10,
          text := "Draft", fontSize := 12 },
        { id := "stale", pageIndex := 5, xPct := 1/2, yPct := 1/2,
          text := "ghost", fontSize := 12 }] }

/-- C1 counterexample: exporting a one-page document with one valid
annotation and one annotation whose `pageIndex` (5) exceeds the page
count does NOT complete with output bytes and a skipped-count of 1 —
`getPage(5)` throws inside the un-guarded `forEach`, the outer `catch`
reports a fatal error, and no output is produced. -/
theorem c1_counterexample :
    exportPdfWithAnnotations (fun s z => (s.length : ℚ) * z / 2) c1State
        (.response true "OK" [37, 80, 68, 70]) (fun _ => some c1SrcDoc) =
      (c1State, .failed "PageIndexOutOfRange") := by
  have hbad : ∃ a ∈ c1State.annotations, c1SrcDoc.length ≤ a.pageIndex := by
    refine ⟨_, List.mem_cons_of_mem _ (List.mem_cons_self _ _), ?_⟩
    simp [c1State, c1SrcDoc]
  have hurl : sampleAtt.url ≠ "" := by decide
  have hc := composeAnnotations_err (fun s z => (s.length : ℚ) * z / 2)
    c1State.annotations c1SrcDoc hbad
  simp [c1State] at hc
  simp [exportPdfWithAnnotations, c1State, sampleTemplate, hurl, copyPages, hc]

/-- C1 amended: whenever any annotation's `pageIndex` is at least the
source document's page count, the whole export fails with the user-facing
error branch — the bad annotation is not skipped, no skipped-count is
reported, and no output bytes are produced (the state is returned
unchanged). -/
theorem c1_amended (helvWidth : String → ℚ → ℚ) (st : EditorState)
    (att : Attachment) (statusText : String) (body : List ℕ)
    (load : List ℕ → Option PdfDoc) (srcPdf : PdfDoc)
    (hatt : st.template.attachment = some att) (hurl : att.url ≠ "")
    (hload : load body = some srcPdf)
    (hbad : ∃ a ∈ st.annotations, srcPdf.length ≤ a.pageIndex) :
    exportPdfWithAnnotations helvWidth st (.response true statusText body)
        load = (st, .failed "PageIndexOutOfRange") := by
  simp [exportPdfWithAnnotations, hatt, hurl, hload, copyPages,
    composeAnnotations_err helvWidth st.annotations srcPdf hbad]

/-- Witness for the amended C1, at the concrete counterexample run. -/
theorem c1_amended_witness :
    exportPdfWithAnnotations (fun s z => (s.length : ℚ) * z / 2) c1State
        (.response true "OK" [1, 2, 3]) (fun _ => some c1SrcDoc) =
      (c1State, .failed "PageIndexOutOfRange") :=
  c1_amended (fun s z => (s.length : ℚ) * z / 2) c1State sampleAtt "OK"
    [1, 2, 3] (fun _ => some c1SrcDoc) c1SrcDoc rfl (by decide) rfl
    (by decide)

/-- C3: drawing an annotation onto its resolved page places the text at
`x = xFraction · pageWidth`, `y = (1 - yFraction) · pageHeight` in the
page's bottom-left-origin coordinate space (and the background rectangle
at that position inset by the fixed padding of 2). -/
theorem c3_draw_position (helvWidth : String → ℚ → ℚ) (doc : PdfDoc)
    (a : PdfAnnot) (page : Page)
    (h : doc.get? a.pageIndex = some page) :
    drawAnnot helvWidth doc a = .ok (doc.set a.pageIndex
      { width := page.width, height := page.height,
        ops := page.ops ++
          [DrawOp.rect (a.xPct * page.width - 2)
              ((1 - a.yPct) * page.height - 2)
              (helvWidth a.text a.fontSize + 2 * 2) (a.fontSize + 2 * 2),
            DrawOp.text a.text (a.xPct * page.width)
              ((1 - a.yPct) * page.height) a.fontSize] }) := by
  unfold drawAnnot
  rw [h]

/-- The 612×792-point page of the spec §8 export scenario. -/
def draftPage : Page := { width := 612, height := 792, ops := [] }

/-- The `{pageIndex:0, xFraction:0.5, yFraction:0.1, text:"Draft",
fontSize:12}` annotation of the spec §8 export scenario. -/
def draftAnnot : PdfAnnot :=
  { id := "d", pageIndex := 0, xPct := 1/2, yPct := 1/10,
    text := "Draft", fontSize := 12 }

/-- Witness for C3: on a 612×792 page, the `Draft` annotation at
`(0.5, 0.1)` is drawn at `x = 306`, `y = 712.8 = 3564/5`. -/
theorem c3_draw_position_witness :
    drawAnnot (fun s z => (s.length : ℚ) * z / 2) [draftPage] draftAnnot =
      .ok [{ width := 612, height := 792,
              ops := [DrawOp.rect 304 (3554/5) 34 16,
                DrawOp.text "Draft" 306 (3564/5) 12] }] := by
  have h := c3_draw_position (fun s z => (s.length : ℚ) * z / 2) [draftPage]
    draftAnnot draftPage rfl
  rw [h]
  have hl : ("Draft".length : ℕ) = 5 := rfl
  norm_num [draftPage, draftAnnot, hl]

/-- A two-page source document with distinct page dimensions. -/
def c6SrcDoc : PdfDoc :=
  [{ width := 612, height := 792, ops := [] },
    { width := 595, height := 842, ops := [] }]

/-- Component state holding the attachment and no annotations. -/
def c6State : EditorState := { template := sampleTemplate, annotations := [] }

/-- C6: exporting with an empty annotation list succeeds and its output
document is exactly the source's copied page list — same page count, same
order, same dimensions, contents untouched. -/
theorem c6_page_preservation (helvWidth : String → ℚ → ℚ)
    (st : EditorState) (att : Attachment) (statusText : String)
    (body : List ℕ) (load : List ℕ → Option PdfDoc) (srcPdf : PdfDoc)
    (hatt : st.template.attachment = some att) (hurl : att.url ≠ "")
    (hload : load body = some srcPdf) (hempty : st.annotations = []) :
    exportPdfWithAnnotations helvWidth st (.response true statusText body)
        load = (st, .exported srcPdf) := by
  simp [exportPdfWithAnnotations, hatt, hurl, hload, copyPages, hempty,
    composeAnnotations]

/-- Witness for C6: the two-page document round-trips unchanged through
an annotation-free export. -/
theorem c6_page_preservation_witness :
    exportPdfWithAnnotations (fun s z => (s.length : ℚ) * z / 2) c6State
        (.response true "OK" [1, 2]) (fun _ => some c6SrcDoc) =
      (c6State, .exported c6SrcDoc) :=
  c6_page_preservation (fun s z => (s.length : ℚ) * z / 2) c6State sampleAtt
    "OK" [1, 2] (fun _ => some c6SrcDoc) c6SrcDoc rfl (by decide) rfl rfl

/-- The fatal entry failures of the export pipeline: the fetch promise
rejects, the response is not `ok`, or `PDFDocument.load` rejects. -/
def fetchOrLoadFails (fetched : FetchOutcome)
    (load : List ℕ → Option PdfDoc) : Prop :=
  (∃ m, fetched = .netError m) ∨
    (∃ s b, fetched = .response false s b) ∨
    (∃ s b, fetched = .response true s b ∧ load b = none)

/-- C7: when the fetch fails (network error or non-ok response) or the
bytes do not parse as a PDF, the export run ends in the `catch` branch
with a user-facing message: no output bytes, no download, no upload, and
the returned state — annotation list and template — is the input state
unchanged. -/
theorem c7_fatal_errors (helvWidth : String → ℚ → ℚ) (st : EditorState)
    (att : Attachment) (fetched : FetchOutcome)
    (load : List ℕ → Option PdfDoc)
    (hatt : st.template.attachment = some att) (hurl : att.url ≠ "")
    (hfail : fetchOrLoadFails fetched load) :
    ∃ msg, exportPdfWithAnnotations helvWidth st fetched load =
      (st, .failed msg) := by
  rcases hfail with ⟨m, rfl⟩ | ⟨s, b, rfl⟩ | ⟨s, b, rfl, hnone⟩
  · exact ⟨m, by simp [exportPdfWithAnnotations, hatt, hurl]⟩
  · exact ⟨"Failed to fetch PDF: " ++ s,
      by simp [exportPdfWithAnnotations, hatt, hurl]⟩
  · exact ⟨"DocumentParseError",
      by simp [exportPdfWithAnnotations, hatt, hurl, hnone]⟩

/-- Witness for C7: a network error aborts the export and leaves the
state unchanged. -/
theorem c7_fatal_errors_witness :
    ∃ msg, exportPdfWithAnnotations (fun s z => (s.length : ℚ) * z / 2)
        c6State (.netError "TypeError: Failed to fetch") (fun _ => none) =
      (c6State, .failed msg) :=
  c7_fatal_errors (fun s z => (s.length : ℚ) * z / 2) c6State sampleAtt
    (.netError "TypeError: Failed to fetch") (fun _ => none) rfl (by decide)
    (Or.inl ⟨_, rfl⟩)

/-- C8: saving the same edited value twice yields the same list as saving
it once; the edit preserves the list's length and rewrites exactly the
positions whose annotation carries the edited id, leaving every other
position unchanged. -/
theorem c8_edit_idempotent (annots : List PdfAnnot) (u : PdfAnnot) :
    saveAnnotationEdit (saveAnnotationEdit annots u) u =
        saveAnnotationEdit annots u ∧
      (saveAnnotationEdit annots u).length = annots.length ∧
      ∀ i : ℕ, (saveAnnotationEdit annots u).get? i =
        (annots.get? i).map fun a => if a.id = u.id then u else a := by
  refine ⟨?_, ?_, ?_⟩
  · simp only [saveAnnotationEdit, List.map_map]
    congr 1
    funext a
    by_cases h : a.id = u.id
    · simp [Function.comp, h]
    · simp [Function.comp, h]
  · simp [saveAnnotationEdit]
  · intro i
    simp [saveAnnotationEdit, List.get?_map]

/-- C10: a successful drop of a new attachment — signed-in user, a file
of a supported type, upload succeeded — always resets the annotation list
to `[]`; no annotation survives replacing the attachment. -/
theorem c10_drop_resets (user : String) (st : EditorState)
    (files : List DropFile) (upload : DropFile → Except String UploadResult)
    (f : DropFile) (kind : AttachKind) (r : UploadResult)
    (hf : files.head? = some f) (hkind : classifyFile f = some kind)
    (hup : upload f = .ok r) :
    (onDropFile (some user) st files upload).annotations = [] := by
  simp [onDropFile, hf, hkind, hup]

/-- Witness for C10: dropping a fresh PDF over the two-annotation state
empties the annotation list. -/
theorem c10_drop_resets_witness :
    (onDropFile (some "user-1") c1State
        [{ name := "new.pdf", mime := "application/pdf" }]
        (fun _ => .ok { storagePath := "u/new.pdf",
                        url := "https://storage.example/new.pdf" })).annotations =
      [] :=
  c10_drop_resets "user-1" c1State
    [{ name := "new.pdf", mime := "application/pdf" }]
    (fun _ => .ok { storagePath := "u/new.pdf",
                    url := "https://storage.example/new.pdf" })
    { name := "new.pdf", mime := "application/pdf" } .pdf
    { storagePath := "u/new.pdf", url := "https://storage.example/new.pdf" }
    rfl (by decide) rfl
